import Mathlib

/-!
# SSO_Login: a shallow embedding of `src/app/app.js`

The application is an Express server that signs users in through a single-tenant
OAuth2 identity provider with passport.  This file embeds the parts of `app.js`
that decide what each route answers:

* the configuration constants and the `config` object (lines 9-26);
* the verify callback of the OAuth2 strategy (lines 75-103);
* the seven route handlers and the `ensureAuthenticated` guard;
* the two error-handling middlewares (lines 185-221 and 278-292).

JavaScript values are embedded by `JsVal`; the operator `a || b` is `jsOr`, and
a template literal placeholder is `JsVal.template`.  What the libraries do
(express-session, passport, passport-oauth2, axios) enters a request as data:
the `Request` structure records the outcome of every library call a handler
makes, and the handlers are pure functions of it.
-/

namespace SSOLogin

/-! ## JavaScript values -/

/-- The JavaScript values that flow through the handlers: JSON scalars and
`undefined`.  `num n` stands for the number `n` when its absolute value is below
`10 ^ 21`, the range in which JavaScript prints a number in plain decimal form;
the status codes and the port are the only numbers the handlers build. -/
inductive JsVal where
  | undefined
  | null
  | bool (b : Bool)
  | num (n : Int)
  | str (s : String)
  deriving DecidableEq, Repr

/-- JavaScript truthiness (`ToBoolean`). -/
def JsVal.truthy : JsVal → Bool
  | .undefined => false
  | .null => false
  | .bool b => b
  | .num n => n != 0
  | .str s => s != ""

/-- The JavaScript operator `a || b`. -/
def jsOr (a b : JsVal) : JsVal :=
  if a.truthy then a else b

/-- The text a template literal placeholder produces for a value (`ToString`). -/
def JsVal.template : JsVal → String
  | .undefined => "undefined"
  | .null => "null"
  | .bool true => "true"
  | .bool false => "false"
  | .num n => toString n
  | .str s => s

/-- A property that is either absent (`undefined`) or a string. -/
def optStr : Option String → JsVal
  | some s => .str s
  | none => .undefined

/-- The method `s.includes(sub)` on lists of characters. -/
def includesChars : List Char → List Char → Bool
  | [], sub => sub.isEmpty
  | c :: cs, sub => sub.isPrefixOf (c :: cs) || includesChars cs sub

/-- The method `s.includes(sub)` of a JavaScript string. -/
def includes (s sub : String) : Bool :=
  includesChars s.toList sub.toList

/-! ## Configuration (lines 9-26) -/

/-- The process environment: a variable is absent or holds a string. -/
abbrev Env := String → Option String

/-- The expression `process.env.NAME`. -/
def processEnv (env : Env) (name : String) : JsVal :=
  optStr (env name)

/-- Line 10: `process.env.PORT || 3000`. -/
def PORT (env : Env) : JsVal :=
  jsOr (processEnv env "PORT") (.num 3000)

/-- Line 11: `process.env.SESSION_SECRET || 'your-session-secret'`. -/
def SESSION_SECRET (env : Env) : JsVal :=
  jsOr (processEnv env "SESSION_SECRET") (.str "your-session-secret")

/-- Line 12: `process.env.CLIENT_ID`. -/
def CLIENT_ID (env : Env) : JsVal :=
  processEnv env "CLIENT_ID"

/-- Line 13: `process.env.CLIENT_SECRET || 'YOUR_CLIENT_SECRET'`. -/
def CLIENT_SECRET (env : Env) : JsVal :=
  jsOr (processEnv env "CLIENT_SECRET") (.str "YOUR_CLIENT_SECRET")

/-- Line 14: `process.env.TENANT_ID`. -/
def TENANT_ID (env : Env) : JsVal :=
  processEnv env "TENANT_ID"

/-- Line 15: `process.env.CALLBACK_URL || 'http://localhost:3000/auth/callback'`. -/
def CALLBACK_URL (env : Env) : JsVal :=
  jsOr (processEnv env "CALLBACK_URL") (.str "http://localhost:3000/auth/callback")

/-- The object `config` of lines 18-26. -/
structure Config where
  clientID : JsVal
  clientSecret : JsVal
  tenantID : JsVal
  callbackURL : JsVal
  resource : String
  authorizationURL : String
  tokenURL : String
  deriving DecidableEq, Repr

/-- Lines 18-26: the provider configuration built at startup. -/
def config (env : Env) : Config where
  clientID := CLIENT_ID env
  clientSecret := CLIENT_SECRET env
  tenantID := TENANT_ID env
  callbackURL := CALLBACK_URL env
  resource := "https://graph.microsoft.com"
  authorizationURL :=
    "https://login.microsoftonline.com/" ++ (TENANT_ID env).template ++ "/oauth2/v2.0/authorize"
  tokenURL :=
    "https://login.microsoftonline.com/" ++ (TENANT_ID env).template ++ "/oauth2/v2.0/token"

/-! ## Faults, user records and the verify callback (lines 75-103) -/

/-- A thrown or passed-on error object: the three properties the handlers read.
`message` and `name` are absent or strings, `status` is absent or a number. -/
structure Fault where
  message : Option String
  name : Option String
  status : Option Nat
  deriving DecidableEq, Repr

/-- The fields of `response.data` of the profile request that the callback reads. -/
structure ProfileData where
  id : JsVal
  displayName : JsVal
  mail : JsVal
  userPrincipalName : JsVal
  deriving DecidableEq, Repr

/-- The user record built at lines 85-91. -/
structure User where
  id : JsVal
  displayName : JsVal
  email : JsVal
  accessToken : JsVal
  refreshToken : JsVal
  deriving DecidableEq, Repr

/-- The `TypeError` that reading `response.data.id` (line 86) throws when the
body of the profile response is `null`. -/
def nullBodyFault : Fault where
  message := some "Cannot read properties of null (reading \x27id\x27)"
  name := some "TypeError"
  status := none

/-- Lines 75-103, the verify callback.  `graph` is what `await axios.get(...)`
gives: the error it throws, or `response.data`, which is `some data` for a body
whose properties can be read and `none` for the body `null`.  The reads of lines
86-88 are inside the `try`, so the `TypeError` of a `null` body ends in the
`catch` like an error of the request.  The result is what is handed to `done`:
`.ok user` for `done(null, user)` and `.error e` for `done(error)`. -/
def verify (accessToken refreshToken : JsVal) (graph : Except Fault (Option ProfileData)) :
    Except Fault User :=
  match graph with
  | .ok (some data) =>
    .ok
      { id := data.id
        displayName := data.displayName
        email := jsOr data.mail data.userPrincipalName
        accessToken := accessToken
        refreshToken := refreshToken }
  | .ok none => .error nullBodyFault
  | .error error => .error error

/-! ## Responses, sessions and requests -/

/-- What a handler writes to `res`.  `redirect l` is `res.redirect(l)` (status
302), `send s b` is `res.status(s).send(b)` with a text body (`res.send(b)` alone
has status 200), and `json s fields` is `res.status(s).json({ error: fields })`,
the fields in the order of the object literal. -/
inductive Response where
  | redirect (location : String)
  | send (status : Nat) (body : String)
  | json (status : Nat) (error : List (String × JsVal))
  deriving DecidableEq, Repr

/-- The HTTP status of a response. -/
def Response.status : Response → Nat
  | .redirect _ => 302
  | .send s _ => s
  | .json s _ => s

/-- The value of a field of the `error` object of a JSON response, `undefined`
when the response has no such field. -/
def Response.field (r : Response) (key : String) : JsVal :=
  match r with
  | .json _ fields => (fields.lookup key).getD .undefined
  | _ => .undefined

/-- The names of the fields of the `error` object of a JSON response. -/
def Response.keys : Response → List String
  | .json _ fields => fields.map Prod.fst
  | _ => []

/-- The session record of a browser client: the serialized user (lines 49-65
serialize and deserialize the user record as it is) and the failure messages
that `failureMessage: true` (line 180) collects. -/
structure Session where
  user : Option User
  messages : List String
  deriving DecidableEq, Repr

/-- How a handler ends: it sends a response, calls `next()`, or hands a fault to
`next(err)`. -/
inductive Outcome where
  | respond (r : Response)
  | next
  | nextErr (err : Fault)
  deriving DecidableEq, Repr

/-- What the OAuth2 strategy of passport-oauth2 does with a request until it
reaches the application code: it fails the attempt (the provider reported
`access_denied`), raises a fault (a provider error, or the token exchange
failed), redirects to the authorization endpoint (no code in the query), or has
obtained the tokens and calls the verify callback, whose profile request gives
`graph`. -/
inductive OAuth2Step where
  | fail (message : JsVal)
  | error (err : Fault)
  | redirect (url : String)
  | verified (accessToken refreshToken : JsVal) (graph : Except Fault (Option ProfileData))

/-- What `req.logout(callback)` does: it calls the callback without an error,
calls it with an error, or throws. -/
inductive LogoutResult where
  | done
  | failed (err : Fault)
  | threw (error : Fault)
  deriving DecidableEq, Repr

/-- An incoming request together with the outcome of every library call its
handler can make. -/
structure Request where
  /-- The session that express-session loaded for the request. -/
  session : Session
  /-- The error `req.isAuthenticated()` throws, when it throws. -/
  authFault : Option Fault
  /-- The query parameter `req.query.error`. -/
  queryError : JsVal
  /-- The query parameter `req.query.error_description`. -/
  queryErrorDescription : JsVal
  /-- The value of `new Date().toISOString()`. -/
  now : String
  /-- What the OAuth2 strategy does with the request. -/
  oauth2 : OAuth2Step
  /-- The error `req.logIn` reports, when establishing the session fails. -/
  logInFault : Option Fault
  /-- What `req.logout` does. -/
  logout : LogoutResult

/-- The property `req.user`: passport restores it from the session. -/
def Request.user (req : Request) : Option User :=
  req.session.user

/-- The call `req.isAuthenticated()`: passport answers whether `req.user` is
set. -/
def Request.isAuthenticated (req : Request) : Except Fault Bool :=
  match req.authFault with
  | some error => .error error
  | none => .ok req.user.isSome

/-! ## passport.authenticate -/

/-- The options the routes pass to `passport.authenticate`. -/
structure AuthenticateOptions where
  successRedirect : Option String
  failureRedirect : Option String
  failureMessage : Bool
  deriving DecidableEq, Repr

/-- The action a passport strategy ends with. -/
inductive StrategyAction where
  | success (user : User)
  | fail (message : JsVal)
  | redirect (url : String)
  | error (err : Fault)
  deriving DecidableEq, Repr

/-- The action of the OAuth2 strategy.  After the verify callback the strategy
reports `done(error)` as an error and `done(null, user)` as a success. -/
def strategyAction : OAuth2Step → StrategyAction
  | .fail message => .fail message
  | .error err => .error err
  | .redirect url => .redirect url
  | .verified accessToken refreshToken graph =>
    match verify accessToken refreshToken graph with
    | .ok user => .success user
    | .error err => .error err

/-- The session after a failed attempt: with `failureMessage: true` a failure
message that is a non-empty string is appended to `req.session.messages`. -/
def recordFailure (options : AuthenticateOptions) (message : JsVal) (session : Session) :
    Session :=
  match options.failureMessage, message with
  | true, .str s => if s != "" then { session with messages := session.messages ++ [s] } else session
  | _, _ => session

/-- The middleware `passport.authenticate('oauth2', options)`: a success logs the
user in and redirects to `successRedirect` or calls `next()`; a failure redirects
to `failureRedirect` or answers 401; a redirect is sent as it is; an error goes
to `next(err)`.  `req.logIn` regenerates the session before it stores the user
record, so the session after it is a fresh one, with the record when it
succeeds and without a user when it reports an error. -/
def passportAuthenticate (options : AuthenticateOptions) (req : Request) : Session × Outcome :=
  match strategyAction req.oauth2 with
  | .success user =>
    match req.logInFault with
    | some err => ({ user := none, messages := [] }, .nextErr err)
    | none =>
      match options.successRedirect with
      | some url => ({ user := some user, messages := [] }, .respond (.redirect url))
      | none => ({ user := some user, messages := [] }, .next)
  | .fail message =>
    match options.failureRedirect with
    | some url => (recordFailure options message req.session, .respond (.redirect url))
    | none => (recordFailure options message req.session, .respond (.send 401 "Unauthorized"))
  | .redirect url => (req.session, .respond (.redirect url))
  | .error err => (req.session, .nextErr err)

/-! ## Routes (lines 105-275) -/

/-- Lines 106-119, `GET /`. -/
def rootRoute (req : Request) : Outcome :=
  match req.isAuthenticated with
  | .ok true => .respond (.redirect "/dashboard")
  | .ok false => .respond (.redirect "/login-page")
  | .error _ => .respond (.send 500 "Internal Server Error")

/-- The options of line 131. -/
def loginOptions : AuthenticateOptions where
  successRedirect := none
  failureRedirect := none
  failureMessage := false

/-- Lines 122-139, `GET /login`. -/
def loginRoute (req : Request) : Session × Outcome :=
  match req.isAuthenticated with
  | .ok true => (req.session, .respond (.redirect "/dashboard"))
  | .ok false => passportAuthenticate loginOptions req
  | .error _ => (req.session, .respond (.send 500 "Authentication failed"))

/-- The page of lines 143-172. -/
def loginPageHtml : String :=
  "\n" ++
  "        <html>\n" ++
  "            <head>\n" ++
  "                <title>Login - NuNxtWav-Dev SSO</title>\n" ++
  "                <style>\n" ++
  "                    body \x7b font-family: Arial, sans-serif; margin: 0; padding: 20px; \x7d\n" ++
  "                    .login-container \x7b max-width: 400px; margin: 50px auto; text-align: center; \x7d\n" ++
  "                    .login-button \x7b \n" ++
  "                        background-color: #0078d4; \n" ++
  "                        color: white; \n" ++
  "                        padding: 10px 20px; \n" ++
  "                        border: none; \n" ++
  "                        border-radius: 4px; \n" ++
  "                        cursor: pointer; \n" ++
  "                        font-size: 16px; \n" ++
  "                    \x7d\n" ++
  "                    .login-button:hover \x7b background-color: #106ebe; \x7d\n" ++
  "                </style>\n" ++
  "            </head>\n" ++
  "            <body>\n" ++
  "                <div class=\"login-container\">\n" ++
  "                    <h1>Welcome to NuNxtWav-Dev SSO</h1>\n" ++
  "                    <p>Please sign in with your organization account</p>\n" ++
  "                    <a href=\"/login\">\n" ++
  "                        <button class=\"login-button\">Sign in with Microsoft</button>\n" ++
  "                    </a>\n" ++
  "                </div>\n" ++
  "            </body>\n" ++
  "        </html>\n" ++
  "    "

/-- Lines 142-173, `GET /login-page`. -/
def loginPageRoute (_req : Request) : Outcome :=
  .respond (.send 200 loginPageHtml)

/-- The options of lines 177-181. -/
def callbackOptions : AuthenticateOptions where
  successRedirect := some "/dashboard"
  failureRedirect := some "/login"
  failureMessage := true

/-- Lines 176-182, `GET /auth/callback`. -/
def authCallbackRoute (req : Request) : Session × Outcome :=
  passportAuthenticate callbackOptions req

/-- Lines 224-235, `GET /auth-error`. -/
def authErrorRoute (req : Request) : Outcome :=
  let error := jsOr req.queryError (.str "Unknown error")
  let errorDescription := jsOr req.queryErrorDescription (.str "No description available")
  .respond
    (.json 400
      [("message", error), ("details", errorDescription), ("timestamp", .str req.now)])

/-- Lines 264-275, the guard `ensureAuthenticated`. -/
def ensureAuthenticated (req : Request) : Outcome :=
  match req.isAuthenticated with
  | .ok true => .next
  | .ok false => .respond (.redirect "/login")
  | .error _ => .respond (.send 500 "Authentication check failed")

/-- Lines 238-245, the handler of `GET /dashboard` behind the guard.  Reading
`req.user.displayName` throws when `req.user` is not set. -/
def dashboardHandler (req : Request) : Outcome :=
  match req.user with
  | some user => .respond (.send 200 ("Welcome " ++ user.displayName.template ++ "!"))
  | none => .respond (.send 500 "Error loading dashboard")

/-- Line 238, `GET /dashboard`: the guard, then the handler when the guard calls
`next()`. -/
def dashboardRoute (req : Request) : Outcome :=
  match ensureAuthenticated req with
  | .next => dashboardHandler req
  | outcome => outcome

/-- Lines 250-256, the callback handed to `req.logout`: the responses it sends. -/
def logoutCallback (err : Option Fault) : List Response :=
  match err with
  | some _ => [.send 500 "Error during logout"]
  | none => [.redirect "/"]

/-- Lines 248-261, `GET /logout`: the responses the handler sends, in order. -/
def logoutRoute (req : Request) : List Response :=
  match req.logout with
  | .done => logoutCallback none
  | .failed err => logoutCallback (some err)
  | .threw _ => [.send 500 "Error during logout"]

/-! ## Error-handling middleware (lines 185-221 and 278-292) -/

/-- The expression `err.status || 500`. -/
def statusOr500 (err : Fault) : Nat :=
  match err.status with
  | some s => if s != 0 then s else 500
  | none => 500

/-- The condition of line 193:
`err.message && err.message.includes('does not exist in tenant')`. -/
def tenantDenied (err : Fault) : Bool :=
  match err.message with
  | some m => m != "" && includes m "does not exist in tenant"
  | none => false

/-- The body of the generic answer of lines 215-220 and 286-291. -/
def genericBody (err : Fault) : List (String × JsVal) :=
  [("message", jsOr (optStr err.message) (.str "Something went wrong")),
   ("status", .num (statusOr500 err))]

/-- The status codes Node accepts when the head of a response is written: the
integers from 100 to 999. -/
def validStatusCode (status : Nat) : Bool :=
  decide (100 ≤ status) && decide (status ≤ 999)

/-- The `RangeError` Node throws when a response with another status code is
written. -/
def invalidStatusFault (status : Nat) : Fault where
  message := some ("Invalid status code: " ++ toString status)
  name := some "RangeError"
  status := none

/-- The call `res.status(status).json({ error: fields })` in an error-handling
middleware: the response is sent when Node accepts the status code; otherwise
the call throws and Express hands the `RangeError` to the error-handling layers
that follow. -/
def sendJson (status : Nat) (fields : List (String × JsVal)) : Outcome :=
  if validStatusCode status then .respond (.json status fields)
  else .nextErr (invalidStatusFault status)

/-- Lines 185-221, the error-handling middleware for authentication errors. -/
def authErrorMiddleware (err : Fault) : Outcome :=
  if tenantDenied err then
    .respond
      (.json 403
        [("message",
            .str ("Access Denied: Your account is not registered in this organization. " ++
              "Please contact your administrator for access.")),
         ("details", .str "You need to be added as an external user in the tenant first."),
         ("code", .str "TENANT_ACCESS_DENIED")])
  else if err.name = some "AuthenticationError" then
    .respond
      (.json 401
        [("message", .str "Authentication failed"),
         ("details", optStr err.message),
         ("code", .str "AUTH_FAILED")])
  else
    sendJson (statusOr500 err) (genericBody err)

/-- Lines 278-292, the global error-handling middleware. -/
def globalErrorMiddleware (err : Fault) : Outcome :=
  sendJson (statusOr500 err) (genericBody err)

/-! ## The middleware stack -/

/-- The layers of the Express stack, named after what `app.js` registers. -/
inductive Layer where
  | session
  | passportInit
  | passportSession
  | root
  | login
  | loginPage
  | authCallback
  | authErrors
  | authError
  | dashboard
  | logout
  | globalErrors
  deriving DecidableEq, Repr

/-- The stack in registration order (lines 29, 45, 46, 106, 122, 142, 176, 185,
224, 238, 248, 278). -/
def stack : List Layer :=
  [.session, .passportInit, .passportSession, .root, .login, .loginPage, .authCallback,
   .authErrors, .authError, .dashboard, .logout, .globalErrors]

/-- The error-handling middleware of a layer, for the two layers that have four
parameters. -/
def errorMiddleware : Layer → Option (Fault → Outcome)
  | .authErrors => some authErrorMiddleware
  | .globalErrors => some globalErrorMiddleware
  | _ => none

/-- The layers registered after a layer. -/
def layersAfter (origin : Layer) : List Layer :=
  (stack.dropWhile (fun l => l != origin)).drop 1

/-- What the client gets: a response of the application, or nothing from it
(control left the stack and the built-in final handler of Express answers). -/
inductive AppResult where
  | response (r : Response)
  | unhandled
  deriving DecidableEq, Repr

/-- Express hands a fault to the error-handling layers that follow, in order,
skipping the others, until one answers; a middleware that throws passes what it
throws to the layers after it.  When none is left the built-in handler of
Express answers. -/
def runErrorChain : List Layer → Fault → AppResult
  | [], _ => .unhandled
  | l :: rest, err =>
    match errorMiddleware l with
    | none => runErrorChain rest err
    | some handler =>
      match handler err with
      | .respond r => .response r
      | .nextErr err2 => runErrorChain rest err2
      | .next => .unhandled

/-- The result of a layer that ended with `outcome`: its response, or the answer
of the error-handling layers after it when it passed a fault on. -/
def finish (origin : Layer) (outcome : Outcome) : AppResult :=
  match outcome with
  | .respond r => .response r
  | .next => .unhandled
  | .nextErr err => runErrorChain (layersAfter origin) err

/-- The routes of the application. -/
inductive Route where
  | root
  | login
  | loginPage
  | authCallback
  | authError
  | dashboard
  | logout
  deriving DecidableEq, Repr

/-- The application: what the client gets for a request to a route. -/
def app (route : Route) (req : Request) : AppResult :=
  match route with
  | .root => finish .root (rootRoute req)
  | .login => finish .login (loginRoute req).2
  | .loginPage => finish .loginPage (loginPageRoute req)
  | .authCallback => finish .authCallback (authCallbackRoute req).2
  | .authError => finish .authError (authErrorRoute req)
  | .dashboard => finish .dashboard (dashboardRoute req)
  | .logout =>
    match logoutRoute req with
    | r :: _ => .response r
    | [] => .unhandled

/-- The fault a route passed to `next(err)`, when it did. -/
def passedFault (route : Route) (req : Request) : Option Fault :=
  match route with
  | .login =>
    match (loginRoute req).2 with
    | .nextErr err => some err
    | _ => none
  | .authCallback =>
    match (authCallbackRoute req).2 with
    | .nextErr err => some err
    | _ => none
  | _ => none

/-! ## Sample inputs and auxiliary definitions -/

/-- A request on which no library call fails: no session, no query parameters,
and a strategy that redirects to the authorization endpoint. -/
def anonymousRequest : Request where
  session := { user := none, messages := [] }
  authFault := none
  queryError := .undefined
  queryErrorDescription := .undefined
  now := "2024-01-01T00:00:00.000Z"
  oauth2 := .redirect "https://login.microsoftonline.com/t/oauth2/v2.0/authorize"
  logInFault := none
  logout := .done

/-- A user record as the verify callback builds it. -/
def sampleUser : User where
  id := .str "42"
  displayName := .str "Ada"
  email := .str "ada@example.com"
  accessToken := .str "at"
  refreshToken := .str "rt"

/-- A request that carries an authenticated session. -/
def signedInRequest : Request :=
  { anonymousRequest with session := { user := some sampleUser, messages := [] } }

/-- The request `/auth-error?error=access_denied&error_description=denied`. -/
def deniedRequest : Request :=
  { anonymousRequest with
    queryError := .str "access_denied"
    queryErrorDescription := .str "denied" }

/-- The layers registered before the error-handling middleware for
authentication errors. -/
def layersBeforeAuthErrors : List Layer :=
  [.session, .passportInit, .passportSession, .root, .login, .loginPage, .authCallback]

/-- A callback request whose token exchange succeeded and whose profile request
throws. -/
def profileFailureRequest : Request :=
  { anonymousRequest with
    oauth2 :=
      .verified (.str "at") (.str "rt")
        (.error
          { message := some "Request failed with status code 401"
            name := some "Error"
            status := none }) }

/-- A fault of the token endpoint for an account that is not in the tenant. -/
def tenantFault : Fault where
  message := some "AADSTS50020: User account does not exist in tenant Contoso"
  name := some "TokenError"
  status := some 500

/-- A callback request whose token exchange fails for an account that is not in
the tenant. -/
def tenantRequest : Request :=
  { anonymousRequest with oauth2 := .error tenantFault }

/-- A callback request whose profile response has none of the fields the verify
callback reads. -/
def emptyProfileRequest : Request :=
  { anonymousRequest with
    oauth2 :=
      .verified (.str "at") (.str "rt")
        (.ok
          (some
            { id := .undefined
              displayName := .undefined
              mail := .undefined
              userPrincipalName := .undefined })) }

/-- The fields the interface description allows in the `error` object. -/
def specEnvelopeKeys : List String :=
  ["message", "details", "code", "status"]

/-- The response shapes of the interface description, in its words: a redirect
(302), a plain-text or HTML body with status 200, or a 4xx/5xx JSON envelope
`{ error: { message, details?, code?, status? } }` with no other field. -/
def specResponseShape (r : Response) : Bool :=
  match r with
  | .redirect _ => true
  | .send s _ => s == 200
  | .json s fields =>
    (400 ≤ s && s < 600) && fields.any (fun f => f.1 == "message") &&
      fields.all (fun f => specEnvelopeKeys.contains f.1)

/-- The text bodies of the 500 responses of lines 117, 137, 243, 253, 259 and
273. -/
def plainFailureBodies : List String :=
  ["Internal Server Error", "Authentication failed", "Error loading dashboard",
   "Error during logout", "Authentication check failed"]

/-- A request for which `req.isAuthenticated()` throws. -/
def authCheckFailureRequest : Request :=
  { anonymousRequest with
    authFault := some { message := some "boom", name := some "Error", status := none } }

/-- An environment that sets the client identifier and nothing else. -/
def clientOnlyEnv : Env := fun name =>
  if name = "CLIENT_ID" then some "11111111-2222-3333-4444-555555555555" else none

/-- Line 68: the constructor of the OAuth2 strategy throws when the `clientID`
option is falsy, so the process serves only when the client identifier is set. -/
def strategyConstructed (c : Config) : Bool :=
  c.clientID.truthy

/-- A request to `/logout` whose `req.logout` throws. -/
def logoutThrowsRequest : Request :=
  { anonymousRequest with
    logout := .threw { message := some "store down", name := some "Error", status := none } }

/-! ## Lemmas on the JavaScript operators -/

theorem includesChars_iff (l sub : List Char) : includesChars l sub = true ↔ sub <:+: l := by
  induction l with
  | nil => simp [includesChars, List.infix_nil]
  | cons c cs ih =>
    simp only [includesChars, Bool.or_eq_true, List.isPrefixOf_iff_prefix, ih]
    exact (List.infix_cons_iff).symm

theorem jsOr_of_truthy (a b : JsVal) (h : a.truthy = true) : jsOr a b = a := by
  simp [jsOr, h]

theorem jsOr_of_falsy (a b : JsVal) (h : a.truthy = false) : jsOr a b = b := by
  simp [jsOr, h]

theorem truthy_str (s : String) : (JsVal.str s).truthy = true ↔ s ≠ "" := by
  simp [JsVal.truthy]

theorem isAuthenticated_true (req : Request) (h : req.isAuthenticated = .ok true) :
    req.authFault = none ∧ ∃ user, req.user = some user := by
  unfold Request.isAuthenticated at h
  cases hf : req.authFault with
  | some e => simp [hf] at h
  | none =>
    simp only [hf] at h
    cases hu : req.user with
    | none => simp [hu] at h
    | some user => exact ⟨rfl, user, rfl⟩

theorem isAuthenticated_false (req : Request) (h : req.isAuthenticated = .ok false) :
    req.authFault = none ∧ req.user = none := by
  unfold Request.isAuthenticated at h
  cases hf : req.authFault with
  | some e => simp [hf] at h
  | none =>
    simp only [hf] at h
    cases hu : req.user with
    | none => exact ⟨rfl, rfl⟩
    | some user => simp [hu] at h

/-! ## The dashboard (C1) -/

/-- C1: a request to `GET /dashboard` for which `req.isAuthenticated()` is false
is answered by the guard with a redirect to `/login`, the guard does not call
`next()` (the handler is not run) and the response is not a 200; a request for
which it is true is answered 200 with the body `Welcome <displayName>!` built from
the display name of the session user. -/
theorem dashboard_requires_authentication (req : Request) :
    (req.isAuthenticated = .ok false →
      ensureAuthenticated req = .respond (.redirect "/login") ∧
      ensureAuthenticated req ≠ .next ∧
      app .dashboard req = .response (.redirect "/login") ∧
      ∀ r, app .dashboard req = .response r → r.status ≠ 200) ∧
    (req.isAuthenticated = .ok true →
      ∃ user, req.session.user = some user ∧
        app .dashboard req =
          .response (.send 200 ("Welcome " ++ user.displayName.template ++ "!")) ∧
        ∀ name, user.displayName = .str name →
          app .dashboard req = .response (.send 200 ("Welcome " ++ name ++ "!"))) := by
  constructor
  · intro h
    have hg : ensureAuthenticated req = .respond (.redirect "/login") := by
      simp [ensureAuthenticated, h]
    have ha : app .dashboard req = .response (.redirect "/login") := by
      simp [app, dashboardRoute, hg, finish]
    refine ⟨hg, by simp [hg], ha, ?_⟩
    intro r hr
    rw [ha] at hr
    cases hr
    simp [Response.status]
  · intro h
    obtain ⟨_, user, hu⟩ := isAuthenticated_true req h
    have ha : app .dashboard req =
        .response (.send 200 ("Welcome " ++ user.displayName.template ++ "!")) := by
      simp [app, dashboardRoute, ensureAuthenticated, h, dashboardHandler, hu, finish]
    refine ⟨user, hu, ha, ?_⟩
    intro name hn
    rw [ha, hn]
    rfl

/-- C1 at concrete requests: the anonymous request is redirected to `/login`, the
signed-in request is greeted by name. -/
theorem dashboard_requires_authentication_witness :
    app .dashboard anonymousRequest = .response (.redirect "/login") ∧
    app .dashboard signedInRequest = .response (.send 200 "Welcome Ada!") :=
  ⟨((dashboard_requires_authentication anonymousRequest).1 rfl).2.2.1,
   by
    obtain ⟨user, hu, _, h⟩ := (dashboard_requires_authentication signedInRequest).2 rfl
    have hs : user = sampleUser := by
      have : signedInRequest.session.user = some sampleUser := rfl
      rw [this] at hu
      exact (Option.some.inj hu).symm
    subst hs
    exact h "Ada" rfl⟩

/-! ## The user record (C4) -/

/-- C4: when the `mail` field of the profile response is absent, null or the
empty string and `userPrincipalName` is a string `p`, the record the verify
callback builds has email `p`, and its id, display name and tokens are those of
the response and of the call; when `mail` is a non-empty string `m` the email is
`m`, whatever `userPrincipalName` is. -/
theorem verify_email_fallback (accessToken refreshToken : JsVal) (data : ProfileData) :
    (∀ p : String,
      (data.mail = .undefined ∨ data.mail = .null ∨ data.mail = .str "") →
      data.userPrincipalName = .str p →
      verify accessToken refreshToken (.ok (some data)) =
        .ok
          { id := data.id
            displayName := data.displayName
            email := .str p
            accessToken := accessToken
            refreshToken := refreshToken }) ∧
    (∀ m : String, data.mail = .str m → m ≠ "" →
      verify accessToken refreshToken (.ok (some data)) =
        .ok
          { id := data.id
            displayName := data.displayName
            email := .str m
            accessToken := accessToken
            refreshToken := refreshToken }) := by
  constructor
  · intro p hmail hupn
    have hf : data.mail.truthy = false := by
      rcases hmail with h | h | h <;> simp [h, JsVal.truthy]
    simp [verify, jsOr_of_falsy _ _ hf, hupn]
  · intro m hmail hm
    have ht : (JsVal.str m).truthy = true := (truthy_str m).2 hm
    simp [verify, hmail, jsOr_of_truthy _ _ ht]

/-- C4 at concrete profile responses: without a mail field the principal name is
the email, with one the mail is. -/
theorem verify_email_fallback_witness :
    verify (.str "at") (.str "rt")
        (.ok
          (some
            { id := .str "42"
              displayName := .str "Ada"
              mail := .null
              userPrincipalName := .str "ada@contoso.onmicrosoft.com" })) =
      .ok
        { id := .str "42"
          displayName := .str "Ada"
          email := .str "ada@contoso.onmicrosoft.com"
          accessToken := .str "at"
          refreshToken := .str "rt" } ∧
    verify (.str "at") (.str "rt")
        (.ok
          (some
            { id := .str "42"
              displayName := .str "Ada"
              mail := .str "ada@example.com"
              userPrincipalName := .str "ada@contoso.onmicrosoft.com" })) =
      .ok
        { id := .str "42"
          displayName := .str "Ada"
          email := .str "ada@example.com"
          accessToken := .str "at"
          refreshToken := .str "rt" } :=
  ⟨(verify_email_fallback (.str "at") (.str "rt")
      { id := .str "42"
        displayName := .str "Ada"
        mail := .null
        userPrincipalName := .str "ada@contoso.onmicrosoft.com" }).1
      "ada@contoso.onmicrosoft.com" (Or.inr (Or.inl rfl)) rfl,
   (verify_email_fallback (.str "at") (.str "rt")
      { id := .str "42"
        displayName := .str "Ada"
        mail := .str "ada@example.com"
        userPrincipalName := .str "ada@contoso.onmicrosoft.com" }).2
      "ada@example.com" rfl (by decide)⟩

/-! ## The route `/auth-error` (C6) -/

/-- C6: every request to `GET /auth-error` is answered with status 400 and a JSON
body whose `error.message` is the `error` query parameter and whose
`error.details` is the `error_description` query parameter when these are
non-empty strings, and `Unknown error` and `No description available` when the
parameter is missing or empty. -/
theorem auth_error_echo (req : Request) :
    ∃ r, authErrorRoute req = .respond r ∧ app .authError req = .response r ∧
      r.status = 400 ∧
      (∀ e : String, req.queryError = .str e → e ≠ "" → r.field "message" = .str e) ∧
      (∀ d : String, req.queryErrorDescription = .str d → d ≠ "" →
        r.field "details" = .str d) ∧
      ((req.queryError = .undefined ∨ req.queryError = .str "") →
        r.field "message" = .str "Unknown error") ∧
      ((req.queryErrorDescription = .undefined ∨ req.queryErrorDescription = .str "") →
        r.field "details" = .str "No description available") := by
  refine ⟨_, rfl, rfl, rfl, ?_, ?_, ?_, ?_⟩
  · intro e he hne
    have ht : (JsVal.str e).truthy = true := (truthy_str e).2 hne
    simp [Response.field, List.lookup, he, jsOr_of_truthy _ _ ht]
  · intro d hd hne
    have ht : (JsVal.str d).truthy = true := (truthy_str d).2 hne
    simp [Response.field, List.lookup, hd, jsOr_of_truthy _ _ ht]
  · intro h
    have hf : req.queryError.truthy = false := by
      rcases h with h | h <;> simp [h, JsVal.truthy]
    simp [Response.field, List.lookup, jsOr_of_falsy _ _ hf]
  · intro h
    have hf : req.queryErrorDescription.truthy = false := by
      rcases h with h | h <;> simp [h, JsVal.truthy]
    simp [Response.field, List.lookup, jsOr_of_falsy _ _ hf]

/-- C6 at the request `/auth-error?error=access_denied&error_description=denied`:
status 400, message `access_denied`, details `denied`. -/
theorem auth_error_echo_witness :
    ∃ r, app .authError deniedRequest = .response r ∧ r.status = 400 ∧
      r.field "message" = .str "access_denied" ∧ r.field "details" = .str "denied" := by
  obtain ⟨r, _, ha, hs, hm, hd, _, _⟩ := auth_error_echo deniedRequest
  exact ⟨r, ha, hs, hm "access_denied" rfl (by decide), hd "denied" rfl (by decide)⟩

/-! ## Logout (C7) -/

/-- C7: a request to `GET /logout`, whatever its session, is answered with a
redirect to `/` when `req.logout` completes without an error, and with status 500
exactly when `req.logout` reports an error to its callback or throws; the handler
sends exactly one response in every case, and two logout requests that both
complete without an error are both redirected to `/`. -/
theorem logout_responses (req : Request) :
    (req.logout = .done →
      logoutRoute req = [.redirect "/"] ∧ app .logout req = .response (.redirect "/")) ∧
    ((∃ r, app .logout req = .response r ∧ r.status = 500) ↔
      ∃ err, req.logout = .failed err ∨ req.logout = .threw err) ∧
    (∃ r, logoutRoute req = [r] ∧ app .logout req = .response r) ∧
    (logoutRoute req).length = 1 ∧
    (∀ second : Request, req.logout = .done → second.logout = .done →
      app .logout req = .response (.redirect "/") ∧
      app .logout second = .response (.redirect "/")) := by
  have hdone : ∀ q : Request, q.logout = .done →
      logoutRoute q = [.redirect "/"] ∧ app .logout q = .response (.redirect "/") := by
    intro q hq
    simp [app, logoutRoute, logoutCallback, hq]
  refine ⟨hdone req, ?_, ?_, ?_, ?_⟩
  · cases hl : req.logout with
    | done => simp [app, logoutRoute, logoutCallback, hl, Response.status]
    | failed err => simp [app, logoutRoute, logoutCallback, hl, Response.status]
    | threw err => simp [app, logoutRoute, logoutCallback, hl, Response.status]
  · cases hl : req.logout <;> simp [app, logoutRoute, logoutCallback, hl]
  · cases hl : req.logout <;> simp [logoutRoute, logoutCallback, hl]
  · intro second h1 h2
    exact ⟨(hdone req h1).2, (hdone second h2).2⟩

/-- C7 at concrete requests: a logout of a signed-in session followed by a logout
without a session are both redirected to `/`. -/
theorem logout_responses_witness :
    app .logout signedInRequest = .response (.redirect "/") ∧
    app .logout anonymousRequest = .response (.redirect "/") :=
  (logout_responses signedInRequest).2.2.2.2 anonymousRequest rfl rfl

/-! ## The routes `/` and `/login` (C8) -/

/-- C8: a request to `GET /` is redirected to `/dashboard` when it is
authenticated and to `/login-page` when it is not; an authenticated request to
`GET /login` is redirected to `/dashboard`, whatever the OAuth2 strategy would do
with it: the strategy is not started and the session is left as it is. -/
theorem root_and_login_redirects (req : Request) :
    (req.isAuthenticated = .ok true →
      rootRoute req = .respond (.redirect "/dashboard") ∧
      app .root req = .response (.redirect "/dashboard")) ∧
    (req.isAuthenticated = .ok false →
      rootRoute req = .respond (.redirect "/login-page") ∧
      app .root req = .response (.redirect "/login-page")) ∧
    (req.isAuthenticated = .ok true →
      app .login req = .response (.redirect "/dashboard") ∧
      ∀ step : OAuth2Step,
        loginRoute { req with oauth2 := step } =
          (req.session, .respond (.redirect "/dashboard"))) := by
  refine ⟨?_, ?_, ?_⟩
  · intro h
    simp [app, rootRoute, h, finish]
  · intro h
    simp [app, rootRoute, h, finish]
  · intro h
    refine ⟨by simp [app, loginRoute, h, finish], ?_⟩
    intro step
    have h2 : Request.isAuthenticated { req with oauth2 := step } = .ok true := h
    simp [loginRoute, h2]

/-- C8 at concrete requests: the signed-in request is sent to `/dashboard` by `/`
and by `/login`, the anonymous request is sent to `/login-page` by `/`. -/
theorem root_and_login_redirects_witness :
    app .root signedInRequest = .response (.redirect "/dashboard") ∧
    app .root anonymousRequest = .response (.redirect "/login-page") ∧
    app .login signedInRequest = .response (.redirect "/dashboard") :=
  ⟨((root_and_login_redirects signedInRequest).1 rfl).2,
   ((root_and_login_redirects anonymousRequest).2.1 rfl).2,
   ((root_and_login_redirects signedInRequest).2.2 rfl).1⟩

/-! ## Faults and the error-handling middleware (C2, C3) -/

theorem includes_iff (s sub : String) : includes s sub = true ↔ sub.toList <:+: s.toList :=
  includesChars_iff s.toList sub.toList

theorem tenantDenied_iff (err : Fault) :
    tenantDenied err = true ↔
      ∃ m, err.message = some m ∧ includes m "does not exist in tenant" = true := by
  unfold tenantDenied
  cases hm : err.message with
  | none => simp
  | some m =>
    simp only [Bool.and_eq_true, bne_iff_ne, ne_eq, Option.some.injEq, exists_eq_left']
    constructor
    · exact fun h => h.2
    · intro h
      refine ⟨?_, h⟩
      intro he
      rw [he] at h
      revert h
      decide

theorem validStatusCode_iff (status : Nat) :
    validStatusCode status = true ↔ 100 ≤ status ∧ status ≤ 999 := by
  simp [validStatusCode]

theorem validStatusCode_statusOr500 (err : Fault) :
    validStatusCode (statusOr500 err) = true ↔
      (err.status = none ∨ err.status = some 0 ∨
        ∃ s, err.status = some s ∧ 100 ≤ s ∧ s ≤ 999) := by
  unfold statusOr500
  cases hs : err.status with
  | none => simp [validStatusCode]
  | some s =>
    by_cases h0 : s = 0
    · subst h0
      simp [validStatusCode]
    · have hne : (s != 0) = true := by simpa using h0
      simp only [hne, if_true, validStatusCode_iff, Option.some.injEq, exists_eq_left', h0,
        false_or]
      simp

theorem sendJson_valid (status : Nat) (fields : List (String × JsVal))
    (h : validStatusCode status = true) :
    sendJson status fields = .respond (.json status fields) := by
  simp [sendJson, h]

theorem sendJson_invalid (status : Nat) (fields : List (String × JsVal))
    (h : validStatusCode status = false) :
    sendJson status fields = .nextErr (invalidStatusFault status) := by
  simp [sendJson, h]

theorem globalErrorMiddleware_invalidStatusFault (status : Nat) :
    globalErrorMiddleware (invalidStatusFault status) =
      .respond (.json 500 (genericBody (invalidStatusFault status))) :=
  sendJson_valid 500 _ (by decide)

theorem authErrorMiddleware_cases (err : Fault) :
    (∃ s fields, authErrorMiddleware err = .respond (.json s fields) ∧
      (s = 403 ∨ s = 401 ∨ (validStatusCode (statusOr500 err) = true ∧ s = statusOr500 err)) ∧
      ∀ k ∈ fields.map Prod.fst, k ∈ specEnvelopeKeys) ∨
    (validStatusCode (statusOr500 err) = false ∧
      authErrorMiddleware err = .nextErr (invalidStatusFault (statusOr500 err))) := by
  unfold authErrorMiddleware
  split
  · exact Or.inl ⟨_, _, rfl, Or.inl rfl, by simp [specEnvelopeKeys]⟩
  · split
    · exact Or.inl ⟨_, _, rfl, Or.inr (Or.inl rfl), by simp [specEnvelopeKeys]⟩
    · cases hv : validStatusCode (statusOr500 err) with
      | true =>
        exact Or.inl ⟨_, _, sendJson_valid _ _ hv, Or.inr (Or.inr ⟨rfl, rfl⟩),
          by simp [specEnvelopeKeys, genericBody]⟩
      | false => exact Or.inr ⟨rfl, sendJson_invalid _ _ hv⟩

theorem authErrorMiddleware_responds (err : Fault)
    (h : validStatusCode (statusOr500 err) = true) :
    ∃ s fields, authErrorMiddleware err = .respond (.json s fields) := by
  rcases authErrorMiddleware_cases err with ⟨s, fields, hr, _, _⟩ | ⟨hv, _⟩
  · exact ⟨s, fields, hr⟩
  · rw [h] at hv
    cases hv

/-- The layers registered before the error-handling middleware for
authentication errors hand their faults to the two error-handling middlewares in
order. -/
theorem runErrorChain_before_authErrors (origin : Layer) (h : origin ∈ layersBeforeAuthErrors)
    (err : Fault) :
    runErrorChain (layersAfter origin) err = runErrorChain [.authErrors, .globalErrors] err := by
  simp only [layersBeforeAuthErrors, List.mem_cons, List.mem_singleton, List.mem_nil_iff,
    or_false] at h
  rcases h with h | h | h | h | h | h | h <;> subst h
  · have : layersAfter .session = [.passportInit, .passportSession, .root, .login, .loginPage,
        .authCallback, .authErrors, .authError, .dashboard, .logout, .globalErrors] := by decide
    rw [this]
    rfl
  · have : layersAfter .passportInit = [.passportSession, .root, .login, .loginPage,
        .authCallback, .authErrors, .authError, .dashboard, .logout, .globalErrors] := by decide
    rw [this]
    rfl
  · have : layersAfter .passportSession = [.root, .login, .loginPage,
        .authCallback, .authErrors, .authError, .dashboard, .logout, .globalErrors] := by decide
    rw [this]
    rfl
  · have : layersAfter .root = [.login, .loginPage,
        .authCallback, .authErrors, .authError, .dashboard, .logout, .globalErrors] := by decide
    rw [this]
    rfl
  · have : layersAfter .login = [.loginPage,
        .authCallback, .authErrors, .authError, .dashboard, .logout, .globalErrors] := by decide
    rw [this]
    rfl
  · have : layersAfter .loginPage = [.authCallback, .authErrors, .authError, .dashboard,
        .logout, .globalErrors] := by decide
    rw [this]
    rfl
  · have : layersAfter .authCallback = [.authErrors, .authError, .dashboard,
        .logout, .globalErrors] := by decide
    rw [this]
    rfl

theorem runErrorChain_of_respond (err : Fault) (r : Response)
    (hr : authErrorMiddleware err = .respond r) :
    runErrorChain [.authErrors, .globalErrors] err = .response r := by
  simp [runErrorChain, errorMiddleware, hr]

theorem runErrorChain_of_throw (err : Fault) (status : Nat)
    (hr : authErrorMiddleware err = .nextErr (invalidStatusFault status)) :
    runErrorChain [.authErrors, .globalErrors] err =
      .response (.json 500 (genericBody (invalidStatusFault status))) := by
  simp [runErrorChain, errorMiddleware, hr, globalErrorMiddleware_invalidStatusFault]

/-- Every fault a layer before the first error-handling middleware passes on is
answered in JSON: by the first middleware, or by the global one when the first
throws on the status code. -/
theorem runErrorChain_json (origin : Layer) (h : origin ∈ layersBeforeAuthErrors)
    (err : Fault) :
    ∃ s fields, runErrorChain (layersAfter origin) err = .response (.json s fields) ∧
      (s = 403 ∨ s = 401 ∨ (validStatusCode (statusOr500 err) = true ∧ s = statusOr500 err) ∨
        (validStatusCode (statusOr500 err) = false ∧ s = 500)) ∧
      ∀ k ∈ fields.map Prod.fst, k ∈ specEnvelopeKeys := by
  rw [runErrorChain_before_authErrors origin h err]
  rcases authErrorMiddleware_cases err with ⟨s, fields, hr, hs, hk⟩ | ⟨hv, hr⟩
  · refine ⟨s, fields, runErrorChain_of_respond err _ hr, ?_, hk⟩
    rcases hs with hs | hs | hs
    · exact Or.inl hs
    · exact Or.inr (Or.inl hs)
    · exact Or.inr (Or.inr (Or.inl hs))
  · exact ⟨500, _, runErrorChain_of_throw err _ hr, Or.inr (Or.inr (Or.inr ⟨hv, rfl⟩)),
      by simp [specEnvelopeKeys, genericBody]⟩

theorem passedFault_app (route : Route) (req : Request) (err : Fault)
    (h : passedFault route req = some err) :
    app route req = runErrorChain [.authErrors, .globalErrors] err := by
  cases route with
  | login =>
    simp only [passedFault] at h
    cases ho : (loginRoute req).2 with
    | respond r => simp [ho] at h
    | next => simp [ho] at h
    | nextErr e =>
      simp only [ho, Option.some.injEq] at h
      subst h
      simp only [app, ho, finish]
      exact runErrorChain_before_authErrors .login (by decide) e
  | authCallback =>
    simp only [passedFault] at h
    cases ho : (authCallbackRoute req).2 with
    | respond r => simp [ho] at h
    | next => simp [ho] at h
    | nextErr e =>
      simp only [ho, Option.some.injEq] at h
      subst h
      simp only [app, ho, finish]
      exact runErrorChain_before_authErrors .authCallback (by decide) e
  | root => simp [passedFault] at h
  | loginPage => simp [passedFault] at h
  | authError => simp [passedFault] at h
  | dashboard => simp [passedFault] at h
  | logout => simp [passedFault] at h

/-- C2 fails as stated: on the callback request whose profile request throws, the
verify callback hands the error to `done(error)` and the client gets the JSON
error response with status 500 of the error-handling middleware, not a redirect
to `/login`. -/
theorem callback_profile_failure_not_redirected :
    app .authCallback profileFailureRequest =
      .response
        (.json 500
          [("message", .str "Request failed with status code 401"), ("status", .num 500)]) ∧
    app .authCallback profileFailureRequest ≠ .response (.redirect "/login") := by
  decide

/-- C2, amended: when the token exchange fails (the strategy raises the fault) or
the profile request of the verify callback throws, the callback route leaves the
session as it was and passes the fault to `next(err)`; the client gets a JSON
error response, never a redirect.  For a fault whose `err.status || 500` is a
status code Node accepts, which the faults of the token exchange and of the
profile request are, that response is the one of the error-handling middleware
for authentication errors.  The redirect to `/login` answers the attempts the
strategy fails (the provider denied access). -/
theorem callback_failure_goes_to_error_middleware (req : Request) :
    (∀ err : Fault,
      (req.oauth2 = .error err ∨
        ∃ accessToken refreshToken, req.oauth2 = .verified accessToken refreshToken (.error err)) →
      (authCallbackRoute req).1 = req.session ∧
      (authCallbackRoute req).2 = .nextErr err ∧
      (∃ s fields, app .authCallback req = .response (.json s fields)) ∧
      (∀ location, app .authCallback req ≠ .response (.redirect location)) ∧
      (validStatusCode (statusOr500 err) = true →
        ∃ s fields, authErrorMiddleware err = .respond (.json s fields) ∧
          app .authCallback req = .response (.json s fields))) ∧
    (∀ message : JsVal, req.oauth2 = .fail message →
      app .authCallback req = .response (.redirect "/login")) := by
  constructor
  · intro err h
    have hact : strategyAction req.oauth2 = .error err := by
      rcases h with h | ⟨a, r, h⟩ <;> simp [h, strategyAction, verify]
    have hroute : authCallbackRoute req = (req.session, .nextErr err) := by
      simp [authCallbackRoute, passportAuthenticate, hact]
    have happ : app .authCallback req = runErrorChain (layersAfter .authCallback) err := by
      simp only [app, hroute, finish]
    obtain ⟨s, fields, hjson, _, _⟩ := runErrorChain_json .authCallback (by decide) err
    refine ⟨by rw [hroute], by rw [hroute], ⟨s, fields, by rw [happ, hjson]⟩, ?_, ?_⟩
    · intro location
      rw [happ, hjson]
      simp
    · intro hv
      obtain ⟨s2, fields2, hr⟩ := authErrorMiddleware_responds err hv
      refine ⟨s2, fields2, hr, ?_⟩
      rw [happ, runErrorChain_before_authErrors .authCallback (by decide) err]
      exact runErrorChain_of_respond err _ hr
  · intro message h
    simp [app, authCallbackRoute, passportAuthenticate, h, strategyAction, callbackOptions,
      finish]

/-- C2, amended, at the callback request whose profile request throws: the
session is unchanged and the answer is the JSON error response of the
error-handling middleware for authentication errors. -/
theorem callback_failure_goes_to_error_middleware_witness :
    (authCallbackRoute profileFailureRequest).1 = profileFailureRequest.session ∧
    ∃ s fields,
      authErrorMiddleware
          { message := some "Request failed with status code 401"
            name := some "Error"
            status := none } =
        .respond (.json s fields) ∧
      app .authCallback profileFailureRequest = .response (.json s fields) := by
  obtain ⟨h1, _, _, _, h2⟩ :=
    (callback_failure_goes_to_error_middleware profileFailureRequest).1
      { message := some "Request failed with status code 401"
        name := some "Error"
        status := none }
      (Or.inr ⟨.str "at", .str "rt", rfl⟩)
  exact ⟨h1, h2 (by decide)⟩

/-- C3: a fault reaching the error responder carries no status, the status zero
or an HTTP status code (100 to 999), as the faults of passport, of the token
exchange and of the profile request do.  For every such fault the
error-handling middleware for authentication errors answers 403 with code
`TENANT_ACCESS_DENIED` when `err.message` contains `does not exist in tenant`
(whatever `err.name` is), otherwise 401 with code `AUTH_FAILED` and details
`err.message` when `err.name` is `AuthenticationError`, otherwise the status
`err.status` when that is present and non-zero and 500 when it is not, with the
body `{ message, status }`, the message being `err.message` or
`Something went wrong` and the status field the HTTP status.  The middleware
sends a response and does not pass the fault on; every fault a route passes on
is answered by it, and the global error-handling middleware gives the same
generic answer. -/
theorem error_responder_decision (err : Fault)
    (hstatus : err.status = none ∨ err.status = some 0 ∨
      ∃ s, err.status = some s ∧ 100 ≤ s ∧ s ≤ 999) :
    ((∃ m, err.message = some m ∧ includes m "does not exist in tenant" = true) →
      ∃ r, authErrorMiddleware err = .respond r ∧ r.status = 403 ∧
        r.field "code" = .str "TENANT_ACCESS_DENIED") ∧
    ((¬ ∃ m, err.message = some m ∧ includes m "does not exist in tenant" = true) →
      err.name = some "AuthenticationError" →
      ∃ r, authErrorMiddleware err = .respond r ∧ r.status = 401 ∧
        r.field "code" = .str "AUTH_FAILED" ∧ r.field "details" = optStr err.message) ∧
    ((¬ ∃ m, err.message = some m ∧ includes m "does not exist in tenant" = true) →
      err.name ≠ some "AuthenticationError" →
      authErrorMiddleware err = .respond (.json (statusOr500 err) (genericBody err))) ∧
    (∀ s, err.status = some s → s ≠ 0 → statusOr500 err = s) ∧
    ((err.status = none ∨ err.status = some 0) → statusOr500 err = 500) ∧
    (∀ m, err.message = some m → m ≠ "" →
      genericBody err = [("message", .str m), ("status", .num (statusOr500 err))]) ∧
    ((err.message = none ∨ err.message = some "") →
      genericBody err =
        [("message", .str "Something went wrong"), ("status", .num (statusOr500 err))]) ∧
    (∃ r, authErrorMiddleware err = .respond r) ∧
    (∀ passed, authErrorMiddleware err ≠ .nextErr passed) ∧
    authErrorMiddleware err ≠ .next ∧
    globalErrorMiddleware err = .respond (.json (statusOr500 err) (genericBody err)) ∧
    (∀ origin ∈ layersBeforeAuthErrors,
      ∃ r, authErrorMiddleware err = .respond r ∧
        runErrorChain (layersAfter origin) err = .response r) ∧
    (∀ (route : Route) (req : Request), passedFault route req = some err →
      ∃ r, authErrorMiddleware err = .respond r ∧ app route req = .response r) := by
  have hv : validStatusCode (statusOr500 err) = true :=
    (validStatusCode_statusOr500 err).2 hstatus
  obtain ⟨s0, fields0, hr0⟩ := authErrorMiddleware_responds err hv
  refine ⟨?_, ?_, ?_, ?_, ?_, ?_, ?_, ⟨_, hr0⟩, ?_, ?_, sendJson_valid _ _ hv, ?_, ?_⟩
  · intro h
    have ht := (tenantDenied_iff err).2 h
    unfold authErrorMiddleware
    rw [if_pos ht]
    exact ⟨_, rfl, rfl, rfl⟩
  · intro h hn
    have ht : tenantDenied err = false := by
      cases hd : tenantDenied err with
      | false => rfl
      | true => exact absurd ((tenantDenied_iff err).1 hd) h
    unfold authErrorMiddleware
    rw [if_neg (by simp [ht]), if_pos hn]
    exact ⟨_, rfl, rfl, rfl, rfl⟩
  · intro h hn
    have ht : tenantDenied err = false := by
      cases hd : tenantDenied err with
      | false => rfl
      | true => exact absurd ((tenantDenied_iff err).1 hd) h
    unfold authErrorMiddleware
    rw [if_neg (by simp [ht]), if_neg hn]
    exact sendJson_valid _ _ hv
  · intro s hs hne
    simp [statusOr500, hs, hne]
  · intro h
    rcases h with h | h <;> simp [statusOr500, h]
  · intro m hm hne
    have ht : (JsVal.str m).truthy = true := (truthy_str m).2 hne
    simp [genericBody, hm, optStr, jsOr_of_truthy _ _ ht]
  · intro h
    rcases h with h | h <;> simp [genericBody, h, optStr, jsOr, JsVal.truthy]
  · intro passed hp
    rw [hr0] at hp
    cases hp
  · intro hp
    rw [hr0] at hp
    cases hp
  · intro origin ho
    refine ⟨_, hr0, ?_⟩
    rw [runErrorChain_before_authErrors origin ho err]
    exact runErrorChain_of_respond err _ hr0
  · intro route req hp
    refine ⟨_, hr0, ?_⟩
    rw [passedFault_app route req err hp]
    exact runErrorChain_of_respond err _ hr0

/-- C3 at the fault of an account outside the tenant, raised by the token
exchange of a callback request: the answer is 403 with code
`TENANT_ACCESS_DENIED`, sent by the error-handling middleware for authentication
errors. -/
theorem error_responder_decision_witness :
    (∃ r, authErrorMiddleware tenantFault = .respond r ∧ r.status = 403 ∧
      r.field "code" = .str "TENANT_ACCESS_DENIED") ∧
    ∃ r, authErrorMiddleware tenantFault = .respond r ∧
      app .authCallback tenantRequest = .response r :=
  ⟨(error_responder_decision tenantFault
        (Or.inr (Or.inr ⟨500, rfl, by decide, by decide⟩))).1
      ⟨"AADSTS50020: User account does not exist in tenant Contoso", rfl, by decide⟩,
   (error_responder_decision tenantFault
        (Or.inr (Or.inr ⟨500, rfl, by decide, by decide⟩))).2.2.2.2.2.2.2.2.2.2.2.2
      .authCallback tenantRequest rfl⟩

/-! ## Validity of the user record (C5) -/

/-- C5 fails as stated: for a profile response without an identifier, a mail and a
principal name the verify callback reports success with a record whose id and
email are `undefined`, and the callback route stores that record in the session
and redirects to `/dashboard`. -/
theorem verify_accepts_empty_profile :
    verify (.str "at") (.str "rt")
        (.ok
          (some
            { id := .undefined
              displayName := .undefined
              mail := .undefined
              userPrincipalName := .undefined })) =
      .ok
        { id := .undefined
          displayName := .undefined
          email := .undefined
          accessToken := .str "at"
          refreshToken := .str "rt" } ∧
    authCallbackRoute emptyProfileRequest =
      ({ user :=
            some
              { id := .undefined
                displayName := .undefined
                email := .undefined
                accessToken := .str "at"
                refreshToken := .str "rt" }
         messages := [] },
        .respond (.redirect "/dashboard")) :=
  ⟨rfl, by decide⟩

/-- C5, amended: for every profile response whose body can be read, the verify
callback reports success without checking the id or the email: the id of the
record is the id of the response and its email is `mail || userPrincipalName`, so
the id is non-empty exactly when the id of the response is, and the email exactly
when the mail or the principal name is.  A response that lacks the identifier, or
both the mail and the principal name, is reported as a success like any other,
and when `req.logIn` succeeds the callback route stores its record in the session
and redirects to `/dashboard`. -/
theorem verify_reports_unchecked_record (accessToken refreshToken : JsVal)
    (data : ProfileData) :
    ∃ user, verify accessToken refreshToken (.ok (some data)) = .ok user ∧
      user.id = data.id ∧ user.email = jsOr data.mail data.userPrincipalName ∧
      (user.id.truthy = true ↔ data.id.truthy = true) ∧
      (user.email.truthy = true ↔
        data.mail.truthy = true ∨ data.userPrincipalName.truthy = true) ∧
      ∀ req : Request,
        req.oauth2 = .verified accessToken refreshToken (.ok (some data)) →
        req.logInFault = none →
        (authCallbackRoute req).1.user = some user ∧
        app .authCallback req = .response (.redirect "/dashboard") := by
  refine ⟨_, rfl, rfl, rfl, Iff.rfl, ?_, ?_⟩
  · show (jsOr data.mail data.userPrincipalName).truthy = true ↔ _
    unfold jsOr
    cases hm : data.mail.truthy <;> simp [hm]
  · intro req hstep hlog
    simp [app, authCallbackRoute, passportAuthenticate, hstep, strategyAction, verify, hlog,
      callbackOptions, finish]

/-- C5, amended, at the profile response without fields: the record without id
and email is reported and stored in the session. -/
theorem verify_reports_unchecked_record_witness :
    ∃ user : User, user.id = .undefined ∧ user.email.truthy = false ∧
      (authCallbackRoute emptyProfileRequest).1.user = some user := by
  obtain ⟨user, _, hid, hemail, _, _, hreq⟩ :=
    verify_reports_unchecked_record (.str "at") (.str "rt")
      { id := .undefined
        displayName := .undefined
        mail := .undefined
        userPrincipalName := .undefined }
  refine ⟨user, hid, ?_, (hreq emptyProfileRequest rfl rfl).1⟩
  rw [hemail]
  rfl

/-! ## The shapes of the responses (C9) -/

/-- C9 fails as stated: the 500 response of the failure path of `GET /` is a text
body, not a JSON envelope, and the body of `/auth-error` has a `timestamp` field
next to `message` and `details`. -/
theorem failure_responses_outside_spec_shapes :
    app .root authCheckFailureRequest = .response (.send 500 "Internal Server Error") ∧
    specResponseShape (.send 500 "Internal Server Error") = false ∧
    app .authError deniedRequest =
      .response
        (.json 400
          [("message", .str "access_denied"), ("details", .str "denied"),
           ("timestamp", .str "2024-01-01T00:00:00.000Z")]) ∧
    specResponseShape
        (.json 400
          [("message", .str "access_denied"), ("details", .str "denied"),
           ("timestamp", .str "2024-01-01T00:00:00.000Z")]) = false := by
  decide

theorem passportAuthenticate_shape (origin : Layer) (ho : origin ∈ layersBeforeAuthErrors)
    (options : AuthenticateOptions) (req : Request) (r : Response)
    (h : finish origin (passportAuthenticate options req).2 = .response r) :
    (∃ location, r = .redirect location) ∨
    (options.failureRedirect = none ∧ r = .send 401 "Unauthorized") ∨
    (∃ err s fields, (passportAuthenticate options req).2 = .nextErr err ∧
      r = .json s fields ∧
      (s = 403 ∨ s = 401 ∨ (validStatusCode (statusOr500 err) = true ∧ s = statusOr500 err) ∨
        (validStatusCode (statusOr500 err) = false ∧ s = 500)) ∧
      ∀ k ∈ r.keys, k ∈ specEnvelopeKeys) := by
  have hfault : ∀ err, (passportAuthenticate options req).2 = .nextErr err →
      ∃ err s fields, (passportAuthenticate options req).2 = .nextErr err ∧
        r = .json s fields ∧
        (s = 403 ∨ s = 401 ∨
          (validStatusCode (statusOr500 err) = true ∧ s = statusOr500 err) ∨
          (validStatusCode (statusOr500 err) = false ∧ s = 500)) ∧
        ∀ k ∈ r.keys, k ∈ specEnvelopeKeys := by
    intro err he
    obtain ⟨s, fields, hr, hs, hk⟩ := runErrorChain_json origin ho err
    rw [he] at h
    simp only [finish] at h
    rw [hr] at h
    cases h
    exact ⟨err, s, fields, he, rfl, hs, hk⟩
  unfold passportAuthenticate at h hfault
  cases hact : strategyAction req.oauth2 with
  | success user =>
    simp only [hact] at h hfault
    cases hlog : req.logInFault with
    | some err =>
      simp only [hlog] at h hfault
      exact Or.inr (Or.inr (by simpa [passportAuthenticate, hact, hlog] using hfault err rfl))
    | none =>
      simp only [hlog] at h
      cases hsr : options.successRedirect with
      | some url =>
        simp only [hsr, finish] at h
        cases h
        exact Or.inl ⟨_, rfl⟩
      | none => simp [hsr, finish] at h
  | fail message =>
    simp only [hact] at h
    cases hfr : options.failureRedirect with
    | some url =>
      simp only [hfr, finish] at h
      cases h
      exact Or.inl ⟨_, rfl⟩
    | none =>
      simp only [hfr, finish] at h
      cases h
      exact Or.inr (Or.inl ⟨rfl, rfl⟩)
  | redirect url =>
    simp only [hact, finish] at h
    cases h
    exact Or.inl ⟨_, rfl⟩
  | error err =>
    simp only [hact] at h hfault
    exact Or.inr (Or.inr (by simpa [passportAuthenticate, hact] using hfault err rfl))

/-- C9, amended: every response of a route handler or error-handling middleware
is a redirect (302), a text or HTML body with status 200, a text body with status
500 (the failure paths of `/`, `/login`, `/dashboard`, `/logout` and
`ensureAuthenticated`), the text body `Unauthorized` with status 401 of a failed
attempt on `/login`, the JSON body of `/auth-error` with status 400 and the
fields `message`, `details` and `timestamp`, or the JSON envelope of the
error-handling middleware for a fault the route passed on, whose fields are among
`message`, `details`, `code` and `status` and whose status is 403, 401 or
`err.status || 500` (500 when that value is not a status code Node accepts). -/
theorem response_shapes (route : Route) (req : Request) (r : Response)
    (h : app route req = .response r) :
    (∃ location, r = .redirect location) ∨
    (∃ body, r = .send 200 body) ∨
    (∃ body ∈ plainFailureBodies, r = .send 500 body) ∨
    (route = .login ∧ r = .send 401 "Unauthorized") ∨
    (route = .authError ∧ r.status = 400 ∧ r.keys = ["message", "details", "timestamp"]) ∨
    (∃ err s fields, passedFault route req = some err ∧ r = .json s fields ∧
      (s = 403 ∨ s = 401 ∨ (validStatusCode (statusOr500 err) = true ∧ s = statusOr500 err) ∨
        (validStatusCode (statusOr500 err) = false ∧ s = 500)) ∧
      ∀ k ∈ r.keys, k ∈ specEnvelopeKeys) := by
  cases route with
  | root =>
    simp only [app, rootRoute] at h
    cases hia : req.isAuthenticated with
    | error e =>
      simp only [hia, finish] at h
      cases h
      exact Or.inr (Or.inr (Or.inl ⟨_, by simp [plainFailureBodies], rfl⟩))
    | ok b =>
      cases b <;> simp only [hia, finish] at h <;> cases h <;> exact Or.inl ⟨_, rfl⟩
  | login =>
    simp only [app, loginRoute] at h
    cases hia : req.isAuthenticated with
    | error e =>
      simp only [hia, finish] at h
      cases h
      exact Or.inr (Or.inr (Or.inl ⟨_, by simp [plainFailureBodies], rfl⟩))
    | ok b =>
      cases b with
      | true =>
        simp only [hia, finish] at h
        cases h
        exact Or.inl ⟨_, rfl⟩
      | false =>
        simp only [hia] at h
        rcases passportAuthenticate_shape .login (by decide) loginOptions req r h with
          hr | ⟨_, hr⟩ | ⟨err, s, fields, he, hr, hs, hk⟩
        · exact Or.inl hr
        · exact Or.inr (Or.inr (Or.inr (Or.inl ⟨rfl, hr⟩)))
        · refine Or.inr (Or.inr (Or.inr (Or.inr (Or.inr ⟨err, s, fields, ?_, hr, hs, hk⟩))))
          simp [passedFault, loginRoute, hia, he]
  | loginPage =>
    simp only [app, loginPageRoute, finish] at h
    cases h
    exact Or.inr (Or.inl ⟨_, rfl⟩)
  | authCallback =>
    simp only [app, authCallbackRoute] at h
    rcases passportAuthenticate_shape .authCallback (by decide) callbackOptions req r h with
      hr | ⟨hn, _⟩ | ⟨err, s, fields, he, hr, hs, hk⟩
    · exact Or.inl hr
    · simp [callbackOptions] at hn
    · refine Or.inr (Or.inr (Or.inr (Or.inr (Or.inr ⟨err, s, fields, ?_, hr, hs, hk⟩))))
      simp [passedFault, authCallbackRoute, he]
  | authError =>
    simp only [app, authErrorRoute, finish] at h
    cases h
    exact Or.inr (Or.inr (Or.inr (Or.inr (Or.inl ⟨rfl, rfl, rfl⟩))))
  | dashboard =>
    simp only [app, dashboardRoute, ensureAuthenticated] at h
    cases hia : req.isAuthenticated with
    | error e =>
      simp only [hia, finish] at h
      cases h
      exact Or.inr (Or.inr (Or.inl ⟨_, by simp [plainFailureBodies], rfl⟩))
    | ok b =>
      cases b with
      | false =>
        simp only [hia, finish] at h
        cases h
        exact Or.inl ⟨_, rfl⟩
      | true =>
        simp only [hia, dashboardHandler] at h
        cases hu : req.user with
        | none =>
          simp only [hu, finish] at h
          cases h
          exact Or.inr (Or.inr (Or.inl ⟨_, by simp [plainFailureBodies], rfl⟩))
        | some user =>
          simp only [hu, finish] at h
          cases h
          exact Or.inr (Or.inl ⟨_, rfl⟩)
  | logout =>
    simp only [app, logoutRoute, logoutCallback] at h
    cases hl : req.logout with
    | done =>
      simp only [hl] at h
      cases h
      exact Or.inl ⟨_, rfl⟩
    | failed err =>
      simp only [hl] at h
      cases h
      exact Or.inr (Or.inr (Or.inl ⟨_, by simp [plainFailureBodies], rfl⟩))
    | threw err =>
      simp only [hl] at h
      cases h
      exact Or.inr (Or.inr (Or.inl ⟨_, by simp [plainFailureBodies], rfl⟩))

/-- C9, amended, at the request to `/logout` whose `req.logout` throws: the
response is one of the text bodies with status 500. -/
theorem response_shapes_witness :
    ∃ body ∈ plainFailureBodies,
      app .logout logoutThrowsRequest = .response (.send 500 body) := by
  rcases response_shapes .logout logoutThrowsRequest
      (.send 500 "Error during logout") rfl with
    ⟨l, hl⟩ | ⟨b, hb⟩ | ⟨b, hmem, hb⟩ | ⟨hr, _⟩ | ⟨hr, _⟩ | ⟨err, s, fields, _, hr, _⟩
  · cases hl
  · cases hb
  · exact ⟨"Error during logout", by decide, rfl⟩
  · cases hr
  · cases hr
  · cases hr

/-! ## Configuration (C10) -/

/-- C10: in the environment that sets the client identifier and nothing else the
strategy is constructed and the four constants with a fallback take it, but the
tenant identifier, which line 14 reads without one, is `undefined`, and the
authorization and token URLs carry the text `undefined` in place of the
tenant. -/
theorem tenant_identifier_without_fallback :
    strategyConstructed (config clientOnlyEnv) = true ∧
    PORT clientOnlyEnv = .num 3000 ∧
    SESSION_SECRET clientOnlyEnv = .str "your-session-secret" ∧
    (config clientOnlyEnv).clientSecret = .str "YOUR_CLIENT_SECRET" ∧
    (config clientOnlyEnv).callbackURL = .str "http://localhost:3000/auth/callback" ∧
    (config clientOnlyEnv).tenantID = .undefined ∧
    (config clientOnlyEnv).authorizationURL =
      "https://login.microsoftonline.com/undefined/oauth2/v2.0/authorize" ∧
    (config clientOnlyEnv).tokenURL =
      "https://login.microsoftonline.com/undefined/oauth2/v2.0/token" := by
  decide

end SSOLogin
